import Mathlib

/-!
Shallow embedding of the ratio computation and classification engine of
src/src/App.jsx (a client-side financial health analyzer).

JS numbers are modelled at two levels. The base model keeps them as exact
rationals with NaN as Option.none: every string the numeric input handler
can store is made of digits, dots and minus signs, and its numeral value
is exact. On top of it, JSNum and calculateRatiosJS refine the parse with
IEEE double behavior: a numeral whose magnitude reaches the double
overflow threshold parses to an infinity, which the isNaN-only validation
of the source does not reject. In-range finite values stay exact: 53-bit
rounding, subnormal underflow and overflow inside the quotients are not
modelled, and no statement below depends on them.

Label correspondence used throughout (code string / spec label):
Excelente = Excellent, Bueno = Good, Regular = Fair, Malo = Poor,
Pésimo = Critical.
-/

/-- Value of a list of decimal digit characters, most significant first. -/
def digitsToNat (ds : List Char) : Nat :=
  ds.foldl (fun acc c => 10 * acc + (c.toNat - Char.toNat '0')) 0

/-- Longest numeric prefix of an unsigned numeral: leading digits, then an
optional fractional block after a single dot. Returns none when not a
single digit is read, exactly as JS parseFloat returns NaN there. -/
def parseFloatCore (cs : List Char) : Option ℚ :=
  let ds := cs.takeWhile Char.isDigit
  let rest := cs.dropWhile Char.isDigit
  let fs := match rest with
    | '.' :: r => r.takeWhile Char.isDigit
    | _ => []
  if ds = [] ∧ fs = [] then none
  else some ((digitsToNat ds : ℚ) + (digitsToNat fs : ℚ) / (10 : ℚ) ^ fs.length)

/-- The exact value of the longest numeric prefix, on the alphabet the
handler handleDisplayNumericInputChange can store (it strips every
character other than digits, dots and minus signs); none models NaN. JS
parseFloat itself returns a double: parseFloatDouble below layers the
overflow to the infinities on top of this exact value. -/
def parseFloat (str : String) : Option ℚ :=
  match str.toList with
  | '-' :: rest => (parseFloatCore rest).map (fun q => -q)
  | cs => parseFloatCore cs

/-- Two-digit rendering of a fraction part, with a leading zero. -/
def twoDigits (fp : Nat) : String :=
  if fp < 10 then "0" ++ toString fp else toString fp

/-- JS Number.prototype.toFixed(2) on a nonnegative exact rational: the
integer nearest to q * 100 (ties upward), printed with two decimals. -/
def toFixed2Nonneg (q : ℚ) : String :=
  let n : Nat := (⌊q * 100 + 1 / 2⌋ : ℤ).toNat
  toString (n / 100) ++ "." ++ twoDigits (n % 100)

/-- JS Number.prototype.toFixed(2) in exact rational arithmetic: the sign
is split off first, then the magnitude is rounded half away from zero, as
the ECMAScript algorithm prescribes. -/
def toFixed2 (q : ℚ) : String :=
  if q < 0 then "-" ++ toFixed2Nonneg (-q) else toFixed2Nonneg q

/-- getCurrentRatioInterpretation from App.jsx. The argument is none when
the JS value is not a number or is NaN, which the source guards against
first and maps to the empty string. -/
def getCurrentRatioInterpretation : Option ℚ → String
  | none => ""
  | some ratio =>
    if ratio > 2.0 then "Excelente 🚀"
    else if ratio ≥ 1.5 then "Bueno 👍"
    else if ratio ≥ 1.0 then "Regular 😐"
    else if ratio ≥ 0.5 then "Malo 🚩"
    else "Pésimo 🚨"

/-- getQuickRatioInterpretation from App.jsx, with the same NaN guard. -/
def getQuickRatioInterpretation : Option ℚ → String
  | none => ""
  | some ratio =>
    if ratio > 1.5 then "Excelente 🚀"
    else if ratio ≥ 1.0 then "Bueno 👍"
    else if ratio ≥ 0.7 then "Regular 😐"
    else if ratio ≥ 0.3 then "Malo 🚩"
    else "Pésimo 🚨"

/-- getDebtToEquityInterpretation from App.jsx, with the same NaN guard
and the compound branch conditions kept as written in the source. -/
def getDebtToEquityInterpretation : Option ℚ → String
  | none => ""
  | some ratio =>
    if ratio < 0.5 then "Excelente 🚀"
    else if ratio ≥ 0.5 ∧ ratio ≤ 1.0 then "Bueno 👍"
    else if ratio > 1.0 ∧ ratio ≤ 2.0 then "Regular 😐"
    else if ratio > 2.0 ∧ ratio ≤ 5.0 then "Malo 🚩"
    else "Pésimo 🚨"

/-- getDebtToAssetsInterpretation from App.jsx, with the same NaN guard
and the compound branch conditions kept as written in the source. -/
def getDebtToAssetsInterpretation : Option ℚ → String
  | none => ""
  | some ratio =>
    if ratio < 0.30 then "Excelente 🚀"
    else if ratio ≥ 0.30 ∧ ratio ≤ 0.50 then "Bueno 👍"
    else if ratio > 0.50 ∧ ratio ≤ 0.70 then "Regular 😐"
    else if ratio > 0.70 ∧ ratio ≤ 0.90 then "Malo 🚩"
    else "Pésimo 🚨"

/-- The slice of the component state that calculateRatios reads and
writes: the six raw input field strings and the result cells. none models
the JS null the result cells are initialised and reset to. -/
@[ext]
structure AppState where
  currentAssets : String
  currentLiabilities : String
  totalAssets : String
  totalLiabilities : String
  shareholdersEquity : String
  inventory : String
  currentRatio : Option String
  quickRatio : Option String
  debtToEquityRatio : Option String
  debtToAssetsRatio : Option String
  currentRatioInterpretation : String
  quickRatioInterpretation : String
  debtToEquityInterpretation : String
  debtToAssetsInterpretation : String
  error : String
deriving DecidableEq, Repr

/-- Body of calculateRatios after the initial resets: parse the six fields
with parseFloat, report the validation error when any is NaN, otherwise
compute the four ratios independently, each one guarded against a zero
denominator exactly as in lines 217 to 262 of App.jsx. -/
def computeFrom (s0 : AppState) : AppState :=
  match parseFloat s0.currentAssets, parseFloat s0.currentLiabilities,
      parseFloat s0.totalAssets, parseFloat s0.totalLiabilities,
      parseFloat s0.shareholdersEquity, parseFloat s0.inventory with
  | some nCA, some nCL, some nTA, some nTL, some nSE, some nInv =>
    let s1 := if nCL ≠ 0 then
        { s0 with currentRatio := some (toFixed2 (nCA / nCL)),
                  currentRatioInterpretation :=
                    getCurrentRatioInterpretation (some (nCA / nCL)) }
      else
        { s0 with currentRatio := some "N/A",
                  currentRatioInterpretation := "Pasivos Circulantes es cero" }
    let s2 := if nCL ≠ 0 then
        { s1 with quickRatio := some (toFixed2 ((nCA - nInv) / nCL)),
                  quickRatioInterpretation :=
                    getQuickRatioInterpretation (some ((nCA - nInv) / nCL)) }
      else
        { s1 with quickRatio := some "N/A",
                  quickRatioInterpretation := "Pasivos Circulantes es cero" }
    let s3 := if nSE ≠ 0 then
        { s2 with debtToEquityRatio := some (toFixed2 (nTL / nSE)),
                  debtToEquityInterpretation :=
                    getDebtToEquityInterpretation (some (nTL / nSE)) }
      else
        { s2 with debtToEquityRatio := some "N/A",
                  debtToEquityInterpretation := "Patrimonio Neto es cero" }
    let s4 := if nTA ≠ 0 then
        { s3 with debtToAssetsRatio := some (toFixed2 (nTL / nTA)),
                  debtToAssetsInterpretation :=
                    getDebtToAssetsInterpretation (some (nTL / nTA)) }
      else
        { s3 with debtToAssetsRatio := some "N/A",
                  debtToAssetsInterpretation := "Activos Totales es cero" }
    s4
  | _, _, _, _, _, _ =>
    { s0 with error :=
        "Por favor, ingrese valores numéricos válidos en todos los campos." }

/-- calculateRatios from App.jsx: clear every previous result and the
error message, then recompute everything from the current input fields.
This base model is faithful whenever every parsed magnitude stays below
overflowThreshold; calculateRatiosJS below refines it with the NaN and
infinity behavior of doubles. -/
def calculateRatios (s : AppState) : AppState :=
  computeFrom
    { s with currentRatio := none, quickRatio := none,
             debtToEquityRatio := none, debtToAssetsRatio := none,
             currentRatioInterpretation := "", quickRatioInterpretation := "",
             debtToEquityInterpretation := "", debtToAssetsInterpretation := "",
             error := "" }

/-- A state whose input fields hold the given strings and whose result
cells are still in the cleared initial configuration. -/
def mkState (ca cl ta tl se inv : String) : AppState :=
  { currentAssets := ca, currentLiabilities := cl, totalAssets := ta,
    totalLiabilities := tl, shareholdersEquity := se, inventory := inv,
    currentRatio := none, quickRatio := none,
    debtToEquityRatio := none, debtToAssetsRatio := none,
    currentRatioInterpretation := "", quickRatioInterpretation := "",
    debtToEquityInterpretation := "", debtToAssetsInterpretation := "",
    error := "" }

/-- Modelled from the spec: rounding of a ratio value to exactly 2 decimal
places, half away from zero. Used only to compare the classification the
code assigns with the classification of the rounded value. -/
def roundTo2 (q : ℚ) : ℚ :=
  ((if q < 0 then -⌊-q * 100 + 1 / 2⌋ else ⌊q * 100 + 1 / 2⌋ : ℤ) : ℚ) / 100
/-- The magnitude at which IEEE 754 double rounding overflows: the
midpoint between the largest finite double and 2 ^ 1024. Round to nearest
even sends every value whose magnitude reaches it to an infinity, and
every smaller value to a finite double. -/
def overflowThreshold : ℚ := 2 ^ 1024 - 2 ^ 970

/-- A JS number as the engine can meet one: NaN, one of the infinities
produced by double overflow, or a finite value. Finite values are kept
exact rather than rounded to 53 bits; nothing below depends on that
rounding. -/
inductive JSNum
  | nan
  | inf
  | negInf
  | fin (q : ℚ)
deriving DecidableEq, Repr

/-- IEEE strict less-than on JS numbers: NaN compares false with
everything, the infinities bound the finite values. -/
def JSNum.ltb : JSNum → JSNum → Bool
  | .nan, _ => false
  | _, .nan => false
  | .inf, _ => false
  | _, .inf => true
  | .negInf, .negInf => false
  | .negInf, _ => true
  | _, .negInf => false
  | .fin a, .fin b => decide (a < b)

/-- IEEE less-or-equal on JS numbers: NaN compares false with everything,
each infinity equals itself. -/
def JSNum.leb : JSNum → JSNum → Bool
  | .nan, _ => false
  | _, .nan => false
  | .negInf, _ => true
  | _, .negInf => false
  | _, .inf => true
  | .inf, _ => false
  | .fin a, .fin b => decide (a ≤ b)

/-- IEEE strict greater-than on JS numbers. -/
def JSNum.gtb (a b : JSNum) : Bool := JSNum.ltb b a

/-- IEEE greater-or-equal on JS numbers. -/
def JSNum.geb (a b : JSNum) : Bool := JSNum.leb b a

/-- JS subtraction on the values the engine can meet: like-signed
infinities cancel to NaN, an infinity dominates a finite operand, finite
values subtract exactly. -/
def JSNum.sub : JSNum → JSNum → JSNum
  | .nan, _ => .nan
  | _, .nan => .nan
  | .inf, .inf => .nan
  | .inf, _ => .inf
  | .negInf, .negInf => .nan
  | .negInf, _ => .negInf
  | .fin _, .inf => .negInf
  | .fin _, .negInf => .inf
  | .fin a, .fin b => .fin (a - b)

/-- JS division on the values the engine can meet: infinity over infinity
is NaN, infinity over a finite value keeps the sign, a finite value over
an infinity collapses to zero (signed zeros are not distinguished),
finite over finite is exact, with the division-by-zero cases spelled out
even though the source guards them away. -/
def JSNum.div : JSNum → JSNum → JSNum
  | .nan, _ => .nan
  | _, .nan => .nan
  | .inf, .inf => .nan
  | .inf, .negInf => .nan
  | .negInf, .inf => .nan
  | .negInf, .negInf => .nan
  | .inf, .fin b => if b < 0 then .negInf else .inf
  | .negInf, .fin b => if b < 0 then .inf else .negInf
  | .fin _, .inf => .fin 0
  | .fin _, .negInf => .fin 0
  | .fin a, .fin b =>
    if b = 0 then (if a = 0 then .nan else if a < 0 then .negInf else .inf)
    else .fin (a / b)

/-- Number.prototype.toFixed(2) on a JS number: the non-finite values
render as their ToString forms, finite values as in toFixed2. -/
def JSNum.toFixedTwo : JSNum → String
  | .nan => "NaN"
  | .inf => "Infinity"
  | .negInf => "-Infinity"
  | .fin q => toFixed2 q

/-- JS parseFloat proper: the exact numeral value pushed into the double
range. A magnitude at or beyond overflowThreshold becomes the matching
infinity, a failed parse is NaN, in-range values stay exact. -/
def parseFloatDouble (str : String) : JSNum :=
  match parseFloat str with
  | none => JSNum.nan
  | some q =>
    if overflowThreshold ≤ q then JSNum.inf
    else if q ≤ -overflowThreshold then JSNum.negInf
    else JSNum.fin q

/-- getCurrentRatioInterpretation over JS numbers: the typeof and isNaN
guard returns the empty string on NaN only; the infinities are genuine
numbers and flow through the comparisons with IEEE semantics. -/
def getCurrentRatioInterpretationJS (ratio : JSNum) : String :=
  if ratio = JSNum.nan then ""
  else if ratio.gtb (JSNum.fin 2.0) then "Excelente 🚀"
  else if ratio.geb (JSNum.fin 1.5) then "Bueno 👍"
  else if ratio.geb (JSNum.fin 1.0) then "Regular 😐"
  else if ratio.geb (JSNum.fin 0.5) then "Malo 🚩"
  else "Pésimo 🚨"

/-- getQuickRatioInterpretation over JS numbers, with the same guard. -/
def getQuickRatioInterpretationJS (ratio : JSNum) : String :=
  if ratio = JSNum.nan then ""
  else if ratio.gtb (JSNum.fin 1.5) then "Excelente 🚀"
  else if ratio.geb (JSNum.fin 1.0) then "Bueno 👍"
  else if ratio.geb (JSNum.fin 0.7) then "Regular 😐"
  else if ratio.geb (JSNum.fin 0.3) then "Malo 🚩"
  else "Pésimo 🚨"

/-- getDebtToEquityInterpretation over JS numbers, with the same guard
and the compound branch conditions of the source. -/
def getDebtToEquityInterpretationJS (ratio : JSNum) : String :=
  if ratio = JSNum.nan then ""
  else if ratio.ltb (JSNum.fin 0.5) then "Excelente 🚀"
  else if ratio.geb (JSNum.fin 0.5) && ratio.leb (JSNum.fin 1.0) then "Bueno 👍"
  else if ratio.gtb (JSNum.fin 1.0) && ratio.leb (JSNum.fin 2.0) then "Regular 😐"
  else if ratio.gtb (JSNum.fin 2.0) && ratio.leb (JSNum.fin 5.0) then "Malo 🚩"
  else "Pésimo 🚨"

/-- getDebtToAssetsInterpretation over JS numbers, with the same guard
and the compound branch conditions of the source. -/
def getDebtToAssetsInterpretationJS (ratio : JSNum) : String :=
  if ratio = JSNum.nan then ""
  else if ratio.ltb (JSNum.fin 0.30) then "Excelente 🚀"
  else if ratio.geb (JSNum.fin 0.30) && ratio.leb (JSNum.fin 0.50) then "Bueno 👍"
  else if ratio.gtb (JSNum.fin 0.50) && ratio.leb (JSNum.fin 0.70) then "Regular 😐"
  else if ratio.gtb (JSNum.fin 0.70) && ratio.leb (JSNum.fin 0.90) then "Malo 🚩"
  else "Pésimo 🚨"

/-- computeFrom refined to JS double behavior: parsing may also yield the
infinities, the validation of lines 211 to 215 still only catches NaN
(isNaN), and the four guarded ratio blocks run on whatever numbers
survive it; an infinity passes every strict-inequality-with-zero guard. -/
def computeFromJS (s0 : AppState) : AppState :=
  let nCA := parseFloatDouble s0.currentAssets
  let nCL := parseFloatDouble s0.currentLiabilities
  let nTA := parseFloatDouble s0.totalAssets
  let nTL := parseFloatDouble s0.totalLiabilities
  let nSE := parseFloatDouble s0.shareholdersEquity
  let nInv := parseFloatDouble s0.inventory
  if nCA = JSNum.nan ∨ nCL = JSNum.nan ∨ nTA = JSNum.nan ∨
      nTL = JSNum.nan ∨ nSE = JSNum.nan ∨ nInv = JSNum.nan then
    { s0 with error :=
        "Por favor, ingrese valores numéricos válidos en todos los campos." }
  else
    let s1 := if nCL ≠ JSNum.fin 0 then
        { s0 with currentRatio := some ((nCA.div nCL).toFixedTwo),
                  currentRatioInterpretation :=
                    getCurrentRatioInterpretationJS (nCA.div nCL) }
      else
        { s0 with currentRatio := some "N/A",
                  currentRatioInterpretation := "Pasivos Circulantes es cero" }
    let s2 := if nCL ≠ JSNum.fin 0 then
        { s1 with quickRatio := some (((nCA.sub nInv).div nCL).toFixedTwo),
                  quickRatioInterpretation :=
                    getQuickRatioInterpretationJS ((nCA.sub nInv).div nCL) }
      else
        { s1 with quickRatio := some "N/A",
                  quickRatioInterpretation := "Pasivos Circulantes es cero" }
    let s3 := if nSE ≠ JSNum.fin 0 then
        { s2 with debtToEquityRatio := some ((nTL.div nSE).toFixedTwo),
                  debtToEquityInterpretation :=
                    getDebtToEquityInterpretationJS (nTL.div nSE) }
      else
        { s2 with debtToEquityRatio := some "N/A",
                  debtToEquityInterpretation := "Patrimonio Neto es cero" }
    let s4 := if nTA ≠ JSNum.fin 0 then
        { s3 with debtToAssetsRatio := some ((nTL.div nTA).toFixedTwo),
                  debtToAssetsInterpretation :=
                    getDebtToAssetsInterpretationJS (nTL.div nTA) }
      else
        { s3 with debtToAssetsRatio := some "N/A",
                  debtToAssetsInterpretation := "Activos Totales es cero" }
    s4

/-- calculateRatios under JS double semantics: the same resets as in the
source, then computeFromJS. -/
def calculateRatiosJS (s : AppState) : AppState :=
  computeFromJS
    { s with currentRatio := none, quickRatio := none,
             debtToEquityRatio := none, debtToAssetsRatio := none,
             currentRatioInterpretation := "", quickRatioInterpretation := "",
             debtToEquityInterpretation := "", debtToAssetsInterpretation := "",
             error := "" }

/-- A storable numeral (digits only, so the input handler keeps it
verbatim) whose value 10 ^ 309 is beyond the double range: JS parseFloat
returns Infinity on it. -/
def overflowNumeral : String := String.mk ('1' :: List.replicate 309 '0')

theorem calculateRatios_eq_of_parse (s : AppState) (nCA nCL nTA nTL nSE nInv : ℚ)
    (hca : parseFloat s.currentAssets = some nCA)
    (hcl : parseFloat s.currentLiabilities = some nCL)
    (hta : parseFloat s.totalAssets = some nTA)
    (htl : parseFloat s.totalLiabilities = some nTL)
    (hse : parseFloat s.shareholdersEquity = some nSE)
    (hinv : parseFloat s.inventory = some nInv) :
    calculateRatios s = { s with
      currentRatio := some (if nCL ≠ 0 then toFixed2 (nCA / nCL) else "N/A"),
      currentRatioInterpretation :=
        if nCL ≠ 0 then getCurrentRatioInterpretation (some (nCA / nCL))
        else "Pasivos Circulantes es cero",
      quickRatio := some (if nCL ≠ 0 then toFixed2 ((nCA - nInv) / nCL) else "N/A"),
      quickRatioInterpretation :=
        if nCL ≠ 0 then getQuickRatioInterpretation (some ((nCA - nInv) / nCL))
        else "Pasivos Circulantes es cero",
      debtToEquityRatio := some (if nSE ≠ 0 then toFixed2 (nTL / nSE) else "N/A"),
      debtToEquityInterpretation :=
        if nSE ≠ 0 then getDebtToEquityInterpretation (some (nTL / nSE))
        else "Patrimonio Neto es cero",
      debtToAssetsRatio := some (if nTA ≠ 0 then toFixed2 (nTL / nTA) else "N/A"),
      debtToAssetsInterpretation :=
        if nTA ≠ 0 then getDebtToAssetsInterpretation (some (nTL / nTA))
        else "Activos Totales es cero",
      error := "" } := by
  obtain ⟨ca, cl, ta, tl, se, iv, r1, r2, r3, r4, i1, i2, i3, i4, err⟩ := s
  simp only at hca hcl hta htl hse hinv
  simp only [calculateRatios, computeFrom, hca, hcl, hta, htl, hse, hinv]
  split_ifs <;> simp

theorem calculateRatios_eq_of_parse_fail (s : AppState)
    (hfail : parseFloat s.currentAssets = none ∨ parseFloat s.currentLiabilities = none ∨
      parseFloat s.totalAssets = none ∨ parseFloat s.totalLiabilities = none ∨
      parseFloat s.shareholdersEquity = none ∨ parseFloat s.inventory = none) :
    calculateRatios s = { s with
      currentRatio := none, quickRatio := none,
      debtToEquityRatio := none, debtToAssetsRatio := none,
      currentRatioInterpretation := "", quickRatioInterpretation := "",
      debtToEquityInterpretation := "", debtToAssetsInterpretation := "",
      error := "Por favor, ingrese valores numéricos válidos en todos los campos." } := by
  obtain ⟨ca, cl, ta, tl, se, iv, r1, r2, r3, r4, i1, i2, i3, i4, err⟩ := s
  simp only at hfail
  rcases h1 : parseFloat ca with _ | a <;>
    rcases h2 : parseFloat cl with _ | b <;>
      rcases h3 : parseFloat ta with _ | c <;>
        rcases h4 : parseFloat tl with _ | d <;>
          rcases h5 : parseFloat se with _ | e <;>
            rcases h6 : parseFloat iv with _ | f <;>
              simp_all [calculateRatios, computeFrom]

/-- Two states agreeing on the six input fields are mapped by
calculateRatios to the same state: every result cell is overwritten
before being recomputed from the inputs alone. -/
theorem calculateRatios_congr (s t : AppState)
    (h1 : s.currentAssets = t.currentAssets)
    (h2 : s.currentLiabilities = t.currentLiabilities)
    (h3 : s.totalAssets = t.totalAssets)
    (h4 : s.totalLiabilities = t.totalLiabilities)
    (h5 : s.shareholdersEquity = t.shareholdersEquity)
    (h6 : s.inventory = t.inventory) :
    calculateRatios s = calculateRatios t := by
  obtain ⟨ca, cl, ta, tl, se, iv, r1, r2, r3, r4, i1, i2, i3, i4, err⟩ := s
  obtain ⟨ca', cl', ta', tl', se', iv', q1, q2, q3, q4, j1, j2, j3, j4, err'⟩ := t
  simp only at h1 h2 h3 h4 h5 h6
  subst h1 h2 h3 h4 h5 h6
  rfl

/-- calculateRatios never changes the six input fields. -/
theorem calculateRatios_fixes_inputs (s : AppState) :
    (calculateRatios s).currentAssets = s.currentAssets ∧
    (calculateRatios s).currentLiabilities = s.currentLiabilities ∧
    (calculateRatios s).totalAssets = s.totalAssets ∧
    (calculateRatios s).totalLiabilities = s.totalLiabilities ∧
    (calculateRatios s).shareholdersEquity = s.shareholdersEquity ∧
    (calculateRatios s).inventory = s.inventory := by
  obtain ⟨ca, cl, ta, tl, se, iv, r1, r2, r3, r4, i1, i2, i3, i4, err⟩ := s
  simp only [calculateRatios, computeFrom]
  split <;> (try split_ifs) <;> simp

/-- Claim C8: calculateRatios is deterministic and stateless: two calls
on identical inputs yield identical outputs whatever result cells or
error message were left over from before, and running it a second time
on its own output changes nothing. -/
theorem calculateRatios_deterministic (s t : AppState)
    (h1 : s.currentAssets = t.currentAssets)
    (h2 : s.currentLiabilities = t.currentLiabilities)
    (h3 : s.totalAssets = t.totalAssets)
    (h4 : s.totalLiabilities = t.totalLiabilities)
    (h5 : s.shareholdersEquity = t.shareholdersEquity)
    (h6 : s.inventory = t.inventory) :
    calculateRatios s = calculateRatios t ∧
      calculateRatios (calculateRatios s) = calculateRatios s := by
  have hfix := calculateRatios_fixes_inputs s
  exact ⟨calculateRatios_congr s t h1 h2 h3 h4 h5 h6,
    calculateRatios_congr (calculateRatios s) s hfix.1 hfix.2.1 hfix.2.2.1
      hfix.2.2.2.1 hfix.2.2.2.2.1 hfix.2.2.2.2.2⟩

/-- Claim C8 witness: two concrete states with the same inputs but
different stale results and error compute to the same state, and the
computation is idempotent on it. -/
theorem calculateRatios_deterministic_witness :
    calculateRatios (mkState "150" "100" "500" "300" "200" "30") =
        calculateRatios { mkState "150" "100" "500" "300" "200" "30" with
          currentRatio := some "9.99", error := "stale" } ∧
      calculateRatios (calculateRatios (mkState "150" "100" "500" "300" "200" "30")) =
        calculateRatios (mkState "150" "100" "500" "300" "200" "30") :=
  calculateRatios_deterministic _ _ rfl rfl rfl rfl rfl rfl

/-- Claim C9: each of the four classification functions is total: on
every rational argument it returns exactly one of the five pairwise
distinct labels, and on a missing number (NaN or a non-number, modelled
by none) it returns the empty string instead of failing. -/
theorem interpretations_total_and_exhaustive :
    (["Excelente 🚀", "Bueno 👍", "Regular 😐", "Malo 🚩", "Pésimo 🚨"] : List String).Nodup ∧
    getCurrentRatioInterpretation none = "" ∧
    getQuickRatioInterpretation none = "" ∧
    getDebtToEquityInterpretation none = "" ∧
    getDebtToAssetsInterpretation none = "" ∧
    ∀ q : ℚ,
      getCurrentRatioInterpretation (some q) ∈
        (["Excelente 🚀", "Bueno 👍", "Regular 😐", "Malo 🚩", "Pésimo 🚨"] : List String) ∧
      getQuickRatioInterpretation (some q) ∈
        (["Excelente 🚀", "Bueno 👍", "Regular 😐", "Malo 🚩", "Pésimo 🚨"] : List String) ∧
      getDebtToEquityInterpretation (some q) ∈
        (["Excelente 🚀", "Bueno 👍", "Regular 😐", "Malo 🚩", "Pésimo 🚨"] : List String) ∧
      getDebtToAssetsInterpretation (some q) ∈
        (["Excelente 🚀", "Bueno 👍", "Regular 😐", "Malo 🚩", "Pésimo 🚨"] : List String) := by
  refine ⟨by decide, rfl, rfl, rfl, rfl, fun q => ?_⟩
  simp only [getCurrentRatioInterpretation, getQuickRatioInterpretation,
    getDebtToEquityInterpretation, getDebtToAssetsInterpretation]
  refine ⟨?_, ?_, ?_, ?_⟩ <;> split_ifs <;> simp

/-- Claim C5: a Current Ratio of exactly 1.5 classifies as Bueno (Good),
not Regular (Fair): for every valid input whose current assets over
current liabilities quotient is exactly 1.5, the displayed value is 1.50
and the label is Bueno. -/
theorem currentRatio_boundary_good (s : AppState) (nCA nCL nTA nTL nSE nInv : ℚ)
    (hca : parseFloat s.currentAssets = some nCA)
    (hcl : parseFloat s.currentLiabilities = some nCL)
    (hta : parseFloat s.totalAssets = some nTA)
    (htl : parseFloat s.totalLiabilities = some nTL)
    (hse : parseFloat s.shareholdersEquity = some nSE)
    (hinv : parseFloat s.inventory = some nInv)
    (hcl0 : nCL ≠ 0) (hr : nCA / nCL = 1.5) :
    (calculateRatios s).currentRatio = some "1.50" ∧
      (calculateRatios s).currentRatioInterpretation = "Bueno 👍" := by
  rw [calculateRatios_eq_of_parse s nCA nCL nTA nTL nSE nInv hca hcl hta htl hse hinv]
  have h1 : toFixed2 (1.5 : ℚ) = "1.50" := by
    simp only [toFixed2, toFixed2Nonneg, twoDigits]
    norm_num
    all_goals decide
  have h2 : getCurrentRatioInterpretation (some (1.5 : ℚ)) = "Bueno 👍" := by
    simp only [getCurrentRatioInterpretation]
    norm_num
  constructor
  · simp [hcl0, hr, h1]
  · simp [hcl0, hr, h2]

/-- Claim C5 witness: currentAssets 150 and currentLiabilities 100 give
Current Ratio 1.50 classified Bueno. -/
theorem currentRatio_boundary_good_witness :
    (calculateRatios (mkState "150" "100" "500" "300" "200" "30")).currentRatio = some "1.50" ∧
      (calculateRatios (mkState "150" "100" "500" "300" "200" "30")).currentRatioInterpretation =
        "Bueno 👍" :=
  currentRatio_boundary_good _ 150 100 500 300 200 30
    (by simp [mkState, parseFloat, parseFloatCore, digitsToNat])
    (by simp [mkState, parseFloat, parseFloatCore, digitsToNat])
    (by simp [mkState, parseFloat, parseFloatCore, digitsToNat])
    (by simp [mkState, parseFloat, parseFloatCore, digitsToNat])
    (by simp [mkState, parseFloat, parseFloatCore, digitsToNat])
    (by simp [mkState, parseFloat, parseFloatCore, digitsToNat])
    (by norm_num) (by norm_num)

/-- Claim C6: with total liabilities 250 and shareholders equity 100 the
Debt-to-Equity ratio is displayed as 2.50 and classified Malo (Poor), in
the bucket above 2.0 and at most 5.0. -/
theorem debtToEquity_250_100_poor (s : AppState) (nCA nCL nTA nInv : ℚ)
    (hca : parseFloat s.currentAssets = some nCA)
    (hcl : parseFloat s.currentLiabilities = some nCL)
    (hta : parseFloat s.totalAssets = some nTA)
    (htl : parseFloat s.totalLiabilities = some 250)
    (hse : parseFloat s.shareholdersEquity = some 100)
    (hinv : parseFloat s.inventory = some nInv) :
    (calculateRatios s).debtToEquityRatio = some "2.50" ∧
      (calculateRatios s).debtToEquityInterpretation = "Malo 🚩" := by
  rw [calculateRatios_eq_of_parse s nCA nCL nTA 250 100 nInv hca hcl hta htl hse hinv]
  have h0 : (100 : ℚ) ≠ 0 := by norm_num
  have hq : (250 : ℚ) / 100 = 2.5 := by norm_num
  have h1 : toFixed2 (2.5 : ℚ) = "2.50" := by
    simp only [toFixed2, toFixed2Nonneg, twoDigits]
    norm_num
    all_goals decide
  have h2 : getDebtToEquityInterpretation (some (2.5 : ℚ)) = "Malo 🚩" := by
    simp only [getDebtToEquityInterpretation]
    norm_num
  constructor
  · simp [h0, hq, h1]
  · simp [h0, hq, h2]

/-- Claim C6 witness: the concrete state realising it. -/
theorem debtToEquity_250_100_poor_witness :
    (calculateRatios (mkState "100" "100" "500" "250" "100" "30")).debtToEquityRatio =
        some "2.50" ∧
      (calculateRatios (mkState "100" "100" "500" "250" "100" "30")).debtToEquityInterpretation =
        "Malo 🚩" :=
  debtToEquity_250_100_poor _ 100 100 500 30
    (by simp [mkState, parseFloat, parseFloatCore, digitsToNat])
    (by simp [mkState, parseFloat, parseFloatCore, digitsToNat])
    (by simp [mkState, parseFloat, parseFloatCore, digitsToNat])
    (by simp [mkState, parseFloat, parseFloatCore, digitsToNat])
    (by simp [mkState, parseFloat, parseFloatCore, digitsToNat])
    (by simp [mkState, parseFloat, parseFloatCore, digitsToNat])

/-- Claim C7: with total liabilities 400 and total assets 500 the
Debt-to-Assets ratio is displayed as 0.80 and classified Malo (Poor), in
the bucket above 0.70 and at most 0.90. -/
theorem debtToAssets_400_500_poor (s : AppState) (nCA nCL nSE nInv : ℚ)
    (hca : parseFloat s.currentAssets = some nCA)
    (hcl : parseFloat s.currentLiabilities = some nCL)
    (hta : parseFloat s.totalAssets = some 500)
    (htl : parseFloat s.totalLiabilities = some 400)
    (hse : parseFloat s.shareholdersEquity = some nSE)
    (hinv : parseFloat s.inventory = some nInv) :
    (calculateRatios s).debtToAssetsRatio = some "0.80" ∧
      (calculateRatios s).debtToAssetsInterpretation = "Malo 🚩" := by
  rw [calculateRatios_eq_of_parse s nCA nCL 500 400 nSE nInv hca hcl hta htl hse hinv]
  have h0 : (500 : ℚ) ≠ 0 := by norm_num
  have hq : (400 : ℚ) / 500 = 0.8 := by norm_num
  have h1 : toFixed2 (0.8 : ℚ) = "0.80" := by
    simp only [toFixed2, toFixed2Nonneg, twoDigits]
    norm_num
    all_goals decide
  have h2 : getDebtToAssetsInterpretation (some (0.8 : ℚ)) = "Malo 🚩" := by
    simp only [getDebtToAssetsInterpretation]
    norm_num
  constructor
  · simp [h0, hq, h1]
  · simp [h0, hq, h2]

/-- Claim C7 witness: the concrete state realising it. -/
theorem debtToAssets_400_500_poor_witness :
    (calculateRatios (mkState "100" "100" "500" "400" "200" "30")).debtToAssetsRatio =
        some "0.80" ∧
      (calculateRatios (mkState "100" "100" "500" "400" "200" "30")).debtToAssetsInterpretation =
        "Malo 🚩" :=
  debtToAssets_400_500_poor _ 100 100 200 30
    (by simp [mkState, parseFloat, parseFloatCore, digitsToNat])
    (by simp [mkState, parseFloat, parseFloatCore, digitsToNat])
    (by simp [mkState, parseFloat, parseFloatCore, digitsToNat])
    (by simp [mkState, parseFloat, parseFloatCore, digitsToNat])
    (by simp [mkState, parseFloat, parseFloatCore, digitsToNat])
    (by simp [mkState, parseFloat, parseFloatCore, digitsToNat])

/-- Claim C10: with negative shareholders equity and positive total
liabilities the Debt-to-Equity ratio is still computed (negative equity
is not treated as a zero denominator), the quotient is negative, and,
being below 0.5, it is always classified Excelente (Excellent). -/
theorem negative_equity_excellent (s : AppState) (nCA nCL nTA nTL nSE nInv : ℚ)
    (hca : parseFloat s.currentAssets = some nCA)
    (hcl : parseFloat s.currentLiabilities = some nCL)
    (hta : parseFloat s.totalAssets = some nTA)
    (htl : parseFloat s.totalLiabilities = some nTL)
    (hse : parseFloat s.shareholdersEquity = some nSE)
    (hinv : parseFloat s.inventory = some nInv)
    (hneg : nSE < 0) (hpos : 0 < nTL) :
    (calculateRatios s).debtToEquityRatio = some (toFixed2 (nTL / nSE)) ∧
      nTL / nSE < 0 ∧
      (calculateRatios s).debtToEquityInterpretation = "Excelente 🚀" := by
  have hne : nSE ≠ 0 := ne_of_lt hneg
  have hlt : nTL / nSE < 0 := div_neg_of_pos_of_neg hpos hneg
  have hc : nTL / nSE < (0.5 : ℚ) := hlt.trans (by norm_num)
  rw [calculateRatios_eq_of_parse s nCA nCL nTA nTL nSE nInv hca hcl hta htl hse hinv]
  refine ⟨by simp [hne], hlt, ?_⟩
  simp [hne, getDebtToEquityInterpretation, hc]

/-- Claim C10 witness: equity -100 and liabilities 250 give a computed
negative ratio classified Excelente. -/
theorem negative_equity_excellent_witness :
    (calculateRatios (mkState "100" "100" "500" "250" "-100" "30")).debtToEquityRatio =
        some (toFixed2 ((250 : ℚ) / (-100))) ∧
      (250 : ℚ) / (-100) < 0 ∧
      (calculateRatios (mkState "100" "100" "500" "250" "-100" "30")).debtToEquityInterpretation =
        "Excelente 🚀" :=
  negative_equity_excellent _ 100 100 500 250 (-100) 30
    (by simp [mkState, parseFloat, parseFloatCore, digitsToNat])
    (by simp [mkState, parseFloat, parseFloatCore, digitsToNat])
    (by simp [mkState, parseFloat, parseFloatCore, digitsToNat])
    (by simp [mkState, parseFloat, parseFloatCore, digitsToNat])
    (by simp [mkState, parseFloat, parseFloatCore, digitsToNat])
    (by simp [mkState, parseFloat, parseFloatCore, digitsToNat])
    (by norm_num) (by norm_num)

/-- Claim C4: a zero denominator is not an error and is isolated to its
own ratio: when current liabilities are zero both liquidity ratios show
the N/A sentinel with the current liabilities message; a zero equity or
zero total assets only affects its own ratio likewise; every ratio whose
own denominator is nonzero is computed and classified normally, and no
validation error is raised. -/
theorem zero_denominator_isolated (s : AppState) (nCA nCL nTA nTL nSE nInv : ℚ)
    (hca : parseFloat s.currentAssets = some nCA)
    (hcl : parseFloat s.currentLiabilities = some nCL)
    (hta : parseFloat s.totalAssets = some nTA)
    (htl : parseFloat s.totalLiabilities = some nTL)
    (hse : parseFloat s.shareholdersEquity = some nSE)
    (hinv : parseFloat s.inventory = some nInv) :
    (nCL = 0 →
      (calculateRatios s).currentRatio = some "N/A" ∧
      (calculateRatios s).currentRatioInterpretation = "Pasivos Circulantes es cero" ∧
      (calculateRatios s).quickRatio = some "N/A" ∧
      (calculateRatios s).quickRatioInterpretation = "Pasivos Circulantes es cero") ∧
    (nSE = 0 →
      (calculateRatios s).debtToEquityRatio = some "N/A" ∧
      (calculateRatios s).debtToEquityInterpretation = "Patrimonio Neto es cero") ∧
    (nTA = 0 →
      (calculateRatios s).debtToAssetsRatio = some "N/A" ∧
      (calculateRatios s).debtToAssetsInterpretation = "Activos Totales es cero") ∧
    (nCL ≠ 0 →
      (calculateRatios s).currentRatio = some (toFixed2 (nCA / nCL)) ∧
      (calculateRatios s).currentRatioInterpretation =
        getCurrentRatioInterpretation (some (nCA / nCL)) ∧
      (calculateRatios s).quickRatio = some (toFixed2 ((nCA - nInv) / nCL)) ∧
      (calculateRatios s).quickRatioInterpretation =
        getQuickRatioInterpretation (some ((nCA - nInv) / nCL))) ∧
    (nSE ≠ 0 →
      (calculateRatios s).debtToEquityRatio = some (toFixed2 (nTL / nSE)) ∧
      (calculateRatios s).debtToEquityInterpretation =
        getDebtToEquityInterpretation (some (nTL / nSE))) ∧
    (nTA ≠ 0 →
      (calculateRatios s).debtToAssetsRatio = some (toFixed2 (nTL / nTA)) ∧
      (calculateRatios s).debtToAssetsInterpretation =
        getDebtToAssetsInterpretation (some (nTL / nTA))) ∧
    (calculateRatios s).error = "" := by
  rw [calculateRatios_eq_of_parse s nCA nCL nTA nTL nSE nInv hca hcl hta htl hse hinv]
  refine ⟨fun h => by simp [h], fun h => by simp [h], fun h => by simp [h],
    fun h => by simp [h], fun h => by simp [h], fun h => by simp [h], by simp⟩

/-- Claim C4 witness: with current liabilities zero the two liquidity
ratios are N/A with their message while Debt-to-Equity and Debt-to-Assets
are still computed from their nonzero denominators. -/
theorem zero_denominator_isolated_witness :
    (calculateRatios (mkState "100" "0" "500" "300" "200" "30")).currentRatio = some "N/A" ∧
      (calculateRatios (mkState "100" "0" "500" "300" "200" "30")).quickRatioInterpretation =
        "Pasivos Circulantes es cero" ∧
      (calculateRatios (mkState "100" "0" "500" "300" "200" "30")).debtToEquityRatio =
        some (toFixed2 ((300 : ℚ) / 200)) ∧
      (calculateRatios (mkState "100" "0" "500" "300" "200" "30")).debtToAssetsRatio =
        some (toFixed2 ((300 : ℚ) / 500)) := by
  have h := zero_denominator_isolated (mkState "100" "0" "500" "300" "200" "30")
    100 0 500 300 200 30
    (by simp [mkState, parseFloat, parseFloatCore, digitsToNat])
    (by simp [mkState, parseFloat, parseFloatCore, digitsToNat])
    (by simp [mkState, parseFloat, parseFloatCore, digitsToNat])
    (by simp [mkState, parseFloat, parseFloatCore, digitsToNat])
    (by simp [mkState, parseFloat, parseFloatCore, digitsToNat])
    (by simp [mkState, parseFloat, parseFloatCore, digitsToNat])
  exact ⟨(h.1 rfl).1, (h.1 rfl).2.2.2, (h.2.2.2.2.1 (by norm_num)).1,
    (h.2.2.2.2.2.1 (by norm_num)).1⟩

/-- Claim C1 counterexample: with currentAssets 100, inventory 30 and
currentLiabilities 100 the Quick Ratio is displayed as 0.70 but its
label is not Bueno (Good): the code classifies 0.7 into the bucket whose
lower bound is 0.7, which is Regular (Fair). -/
theorem quickRatio_070_not_good :
    (calculateRatios (mkState "100" "100" "500" "300" "200" "30")).quickRatio = some "0.70" ∧
      (calculateRatios (mkState "100" "100" "500" "300" "200" "30")).quickRatioInterpretation ≠
        "Bueno 👍" := by
  rw [calculateRatios_eq_of_parse (mkState "100" "100" "500" "300" "200" "30")
    100 100 500 300 200 30
    (by simp [mkState, parseFloat, parseFloatCore, digitsToNat])
    (by simp [mkState, parseFloat, parseFloatCore, digitsToNat])
    (by simp [mkState, parseFloat, parseFloatCore, digitsToNat])
    (by simp [mkState, parseFloat, parseFloatCore, digitsToNat])
    (by simp [mkState, parseFloat, parseFloatCore, digitsToNat])
    (by simp [mkState, parseFloat, parseFloatCore, digitsToNat])]
  have h0 : (100 : ℚ) ≠ 0 := by norm_num
  have hq : ((100 : ℚ) - 30) / 100 = 0.7 := by norm_num
  have h1 : toFixed2 (0.7 : ℚ) = "0.70" := by
    simp only [toFixed2, toFixed2Nonneg, twoDigits]
    norm_num
    all_goals decide
  have h2 : getQuickRatioInterpretation (some (0.7 : ℚ)) = "Regular 😐" := by
    simp only [getQuickRatioInterpretation]
    norm_num
  constructor
  · simp [h0, hq, h1]
  · simp [h0, hq, h2]

/-- Claim C1 (amended): with currentAssets 100, inventory 30 and
currentLiabilities 100 (and any parseable values elsewhere) the Quick
Ratio is (100 - 30) / 100, displayed as 0.70, and classified Regular
(Fair), the bucket [0.7, 1.0) of the interpretation table. -/
theorem quickRatio_070_fair (s : AppState) (nTA nTL nSE : ℚ)
    (hca : parseFloat s.currentAssets = some 100)
    (hcl : parseFloat s.currentLiabilities = some 100)
    (hta : parseFloat s.totalAssets = some nTA)
    (htl : parseFloat s.totalLiabilities = some nTL)
    (hse : parseFloat s.shareholdersEquity = some nSE)
    (hinv : parseFloat s.inventory = some 30) :
    (calculateRatios s).quickRatio = some "0.70" ∧
      (calculateRatios s).quickRatioInterpretation = "Regular 😐" := by
  rw [calculateRatios_eq_of_parse s 100 100 nTA nTL nSE 30 hca hcl hta htl hse hinv]
  have h0 : (100 : ℚ) ≠ 0 := by norm_num
  have hq : ((100 : ℚ) - 30) / 100 = 0.7 := by norm_num
  have h1 : toFixed2 (0.7 : ℚ) = "0.70" := by
    simp only [toFixed2, toFixed2Nonneg, twoDigits]
    norm_num
    all_goals decide
  have h2 : getQuickRatioInterpretation (some (0.7 : ℚ)) = "Regular 😐" := by
    simp only [getQuickRatioInterpretation]
    norm_num
  constructor
  · simp [h0, hq, h1]
  · simp [h0, hq, h2]

/-- Claim C1 (amended) witness: the concrete state realising it. -/
theorem quickRatio_070_fair_witness :
    (calculateRatios (mkState "100" "100" "400" "250" "150" "30")).quickRatio = some "0.70" ∧
      (calculateRatios (mkState "100" "100" "400" "250" "150" "30")).quickRatioInterpretation =
        "Regular 😐" :=
  quickRatio_070_fair _ 400 250 150
    (by simp [mkState, parseFloat, parseFloatCore, digitsToNat])
    (by simp [mkState, parseFloat, parseFloatCore, digitsToNat])
    (by simp [mkState, parseFloat, parseFloatCore, digitsToNat])
    (by simp [mkState, parseFloat, parseFloatCore, digitsToNat])
    (by simp [mkState, parseFloat, parseFloatCore, digitsToNat])
    (by simp [mkState, parseFloat, parseFloatCore, digitsToNat])

/-- Claim C3 counterexample: with currentAssets 2001 and
currentLiabilities 1000 the raw Current Ratio 2.001 is classified
Excelente, while its value rounded to two decimals, 2.00, would be
classified Bueno: the classification the code assigns is not the
classification of the rounded value. -/
theorem classification_not_of_rounded :
    (calculateRatios (mkState "2001" "1000" "500" "300" "200" "30")).currentRatioInterpretation ≠
      getCurrentRatioInterpretation (some (roundTo2 ((2001 : ℚ) / 1000))) := by
  rw [calculateRatios_eq_of_parse (mkState "2001" "1000" "500" "300" "200" "30")
    2001 1000 500 300 200 30
    (by simp [mkState, parseFloat, parseFloatCore, digitsToNat])
    (by simp [mkState, parseFloat, parseFloatCore, digitsToNat])
    (by simp [mkState, parseFloat, parseFloatCore, digitsToNat])
    (by simp [mkState, parseFloat, parseFloatCore, digitsToNat])
    (by simp [mkState, parseFloat, parseFloatCore, digitsToNat])
    (by simp [mkState, parseFloat, parseFloatCore, digitsToNat])]
  have h0 : (1000 : ℚ) ≠ 0 := by norm_num
  have hraw : getCurrentRatioInterpretation (some ((2001 : ℚ) / 1000)) = "Excelente 🚀" := by
    simp only [getCurrentRatioInterpretation]
    norm_num
  have hround : roundTo2 ((2001 : ℚ) / 1000) = 2 := by
    simp only [roundTo2]
    norm_num
  have hlab : getCurrentRatioInterpretation (some (2 : ℚ)) = "Bueno 👍" := by
    simp only [getCurrentRatioInterpretation]
    norm_num
  simp [h0, hraw, hround, hlab]

/-- Claim C3 (amended): for every valid input with nonzero denominators,
each displayed value is the raw quotient formatted by toFixed(2), that
is rounded to two decimals half away from zero, while each
classification label is computed from the raw unrounded quotient. -/
theorem display_rounded_classification_raw (s : AppState) (nCA nCL nTA nTL nSE nInv : ℚ)
    (hca : parseFloat s.currentAssets = some nCA)
    (hcl : parseFloat s.currentLiabilities = some nCL)
    (hta : parseFloat s.totalAssets = some nTA)
    (htl : parseFloat s.totalLiabilities = some nTL)
    (hse : parseFloat s.shareholdersEquity = some nSE)
    (hinv : parseFloat s.inventory = some nInv)
    (hcl0 : nCL ≠ 0) (hse0 : nSE ≠ 0) (hta0 : nTA ≠ 0) :
    (calculateRatios s).currentRatio = some (toFixed2 (nCA / nCL)) ∧
      (calculateRatios s).currentRatioInterpretation =
        getCurrentRatioInterpretation (some (nCA / nCL)) ∧
      (calculateRatios s).quickRatio = some (toFixed2 ((nCA - nInv) / nCL)) ∧
      (calculateRatios s).quickRatioInterpretation =
        getQuickRatioInterpretation (some ((nCA - nInv) / nCL)) ∧
      (calculateRatios s).debtToEquityRatio = some (toFixed2 (nTL / nSE)) ∧
      (calculateRatios s).debtToEquityInterpretation =
        getDebtToEquityInterpretation (some (nTL / nSE)) ∧
      (calculateRatios s).debtToAssetsRatio = some (toFixed2 (nTL / nTA)) ∧
      (calculateRatios s).debtToAssetsInterpretation =
        getDebtToAssetsInterpretation (some (nTL / nTA)) := by
  rw [calculateRatios_eq_of_parse s nCA nCL nTA nTL nSE nInv hca hcl hta htl hse hinv]
  simp [hcl0, hse0, hta0]

/-- Claim C3 (amended) witness: the display cell holds the toFixed
rendering of the raw Current Ratio at a concrete input. -/
theorem display_rounded_classification_raw_witness :
    (calculateRatios (mkState "100" "100" "500" "300" "200" "30")).currentRatio =
      some (toFixed2 ((100 : ℚ) / 100)) :=
  (display_rounded_classification_raw (mkState "100" "100" "500" "300" "200" "30")
    100 100 500 300 200 30
    (by simp [mkState, parseFloat, parseFloatCore, digitsToNat])
    (by simp [mkState, parseFloat, parseFloatCore, digitsToNat])
    (by simp [mkState, parseFloat, parseFloatCore, digitsToNat])
    (by simp [mkState, parseFloat, parseFloatCore, digitsToNat])
    (by simp [mkState, parseFloat, parseFloatCore, digitsToNat])
    (by simp [mkState, parseFloat, parseFloatCore, digitsToNat])
    (by norm_num) (by norm_num) (by norm_num)).1

/-- Valid-parse characterization of calculateRatiosJS: when no field
parses to NaN the validation passes and the four guarded blocks fill
their cells from the parsed JS numbers, infinities included. -/
theorem calculateRatiosJS_eq_of_parse (s : AppState) (nCA nCL nTA nTL nSE nInv : JSNum)
    (hca : parseFloatDouble s.currentAssets = nCA)
    (hcl : parseFloatDouble s.currentLiabilities = nCL)
    (hta : parseFloatDouble s.totalAssets = nTA)
    (htl : parseFloatDouble s.totalLiabilities = nTL)
    (hse : parseFloatDouble s.shareholdersEquity = nSE)
    (hinv : parseFloatDouble s.inventory = nInv)
    (h1 : nCA ≠ JSNum.nan) (h2 : nCL ≠ JSNum.nan) (h3 : nTA ≠ JSNum.nan)
    (h4 : nTL ≠ JSNum.nan) (h5 : nSE ≠ JSNum.nan) (h6 : nInv ≠ JSNum.nan) :
    calculateRatiosJS s = { s with
      currentRatio :=
        some (if nCL ≠ JSNum.fin 0 then (nCA.div nCL).toFixedTwo else "N/A"),
      currentRatioInterpretation :=
        if nCL ≠ JSNum.fin 0 then getCurrentRatioInterpretationJS (nCA.div nCL)
        else "Pasivos Circulantes es cero",
      quickRatio :=
        some (if nCL ≠ JSNum.fin 0 then ((nCA.sub nInv).div nCL).toFixedTwo else "N/A"),
      quickRatioInterpretation :=
        if nCL ≠ JSNum.fin 0 then getQuickRatioInterpretationJS ((nCA.sub nInv).div nCL)
        else "Pasivos Circulantes es cero",
      debtToEquityRatio :=
        some (if nSE ≠ JSNum.fin 0 then (nTL.div nSE).toFixedTwo else "N/A"),
      debtToEquityInterpretation :=
        if nSE ≠ JSNum.fin 0 then getDebtToEquityInterpretationJS (nTL.div nSE)
        else "Patrimonio Neto es cero",
      debtToAssetsRatio :=
        some (if nTA ≠ JSNum.fin 0 then (nTL.div nTA).toFixedTwo else "N/A"),
      debtToAssetsInterpretation :=
        if nTA ≠ JSNum.fin 0 then getDebtToAssetsInterpretationJS (nTL.div nTA)
        else "Activos Totales es cero",
      error := "" } := by
  obtain ⟨ca, cl, ta, tl, se, iv, r1, r2, r3, r4, i1, i2, i3, i4, err⟩ := s
  simp only at hca hcl hta htl hse hinv
  simp only [calculateRatiosJS, computeFromJS, hca, hcl, hta, htl, hse, hinv]
  rw [if_neg (by simp [h1, h2, h3, h4, h5, h6])]
  split_ifs <;> simp

/-- NaN-parse characterization of calculateRatiosJS: when some field
parses to NaN the validation error fires and every result cell stays
cleared. -/
theorem calculateRatiosJS_eq_of_nan (s : AppState)
    (hfail : parseFloatDouble s.currentAssets = JSNum.nan ∨
      parseFloatDouble s.currentLiabilities = JSNum.nan ∨
      parseFloatDouble s.totalAssets = JSNum.nan ∨
      parseFloatDouble s.totalLiabilities = JSNum.nan ∨
      parseFloatDouble s.shareholdersEquity = JSNum.nan ∨
      parseFloatDouble s.inventory = JSNum.nan) :
    calculateRatiosJS s = { s with
      currentRatio := none, quickRatio := none,
      debtToEquityRatio := none, debtToAssetsRatio := none,
      currentRatioInterpretation := "", quickRatioInterpretation := "",
      debtToEquityInterpretation := "", debtToAssetsInterpretation := "",
      error := "Por favor, ingrese valores numéricos válidos en todos los campos." } := by
  obtain ⟨ca, cl, ta, tl, se, iv, r1, r2, r3, r4, i1, i2, i3, i4, err⟩ := s
  simp only at hfail
  simp only [calculateRatiosJS, computeFromJS]
  rw [if_pos hfail]

/-- Unwinding the digit fold over a block of zero characters: each zero
multiplies the accumulator by ten. -/
theorem digitsToNat_replicate_zero (a n : ℕ) :
    List.foldl (fun acc c => 10 * acc + (c.toNat - Char.toNat '0')) a
      (List.replicate n '0') = 10 ^ n * a := by
  induction n generalizing a with
  | zero => simp
  | succ n ih =>
    rw [List.replicate_succ, List.foldl_cons, ih]
    have h0 : Char.toNat '0' - Char.toNat '0' = 0 := rfl
    rw [h0]
    ring

/-- parseFloatCore on a nonempty all-digit list is exactly the digit
fold: the whole list is the integer block and there is no fraction. -/
theorem parseFloatCore_digits (cs : List Char) (hne : cs ≠ [])
    (h : ∀ c ∈ cs, c.isDigit = true) :
    parseFloatCore cs = some ((digitsToNat cs : ℚ)) := by
  unfold parseFloatCore
  rw [List.takeWhile_eq_self_iff.mpr h, List.dropWhile_eq_nil_iff.mpr h]
  simp [hne, digitsToNat]

/-- Claim C2 counterexample: a storable 310-digit numeral parses past the
double range to Infinity; the isNaN-only validation lets it through, no
ValidationError is raised, and the Current Ratio formula processes the
Infinity, rendering it as Infinity with the label Excelente. So an input
field that does not parse as a finite real number still produces ratio
results, refuting the claimed equivalence and its Infinity rider. -/
theorem validation_misses_infinity :
    parseFloatDouble overflowNumeral = JSNum.inf ∧
      (calculateRatiosJS (mkState overflowNumeral "100" "500" "300" "200" "30")).error = "" ∧
      (calculateRatiosJS (mkState overflowNumeral "100" "500" "300" "200" "30")).currentRatio =
        some "Infinity" ∧
      (calculateRatiosJS
          (mkState overflowNumeral "100" "500" "300" "200" "30")).currentRatioInterpretation =
        "Excelente 🚀" := by
  have hbig : parseFloat overflowNumeral = some ((10 : ℚ) ^ 309) := by
    have e : parseFloat overflowNumeral =
        parseFloatCore ('1' :: List.replicate 309 '0') := rfl
    have hd : ∀ c ∈ ('1' :: List.replicate 309 '0'), c.isDigit = true := by
      intro c hc
      rcases List.mem_cons.mp hc with h | h
      · subst h; decide
      · rw [List.eq_of_mem_replicate h]; decide
    have hv : digitsToNat ('1' :: List.replicate 309 '0') = 10 ^ 309 := by
      unfold digitsToNat
      rw [List.foldl_cons, digitsToNat_replicate_zero]
      norm_num [show Char.toNat '1' = 49 from rfl, show Char.toNat '0' = 48 from rfl]
    rw [e, parseFloatCore_digits _ (List.cons_ne_nil _ _) hd, hv]
    norm_num
  have hinf : parseFloatDouble overflowNumeral = JSNum.inf := by
    simp only [parseFloatDouble, hbig]
    rw [if_pos (by norm_num [overflowThreshold])]
  have h100 : parseFloatDouble "100" = JSNum.fin 100 := by
    have h : parseFloat "100" = some 100 := by
      simp [parseFloat, parseFloatCore, digitsToNat]
    simp only [parseFloatDouble, h]
    rw [if_neg (by norm_num [overflowThreshold]), if_neg (by norm_num [overflowThreshold])]
  have h500 : parseFloatDouble "500" = JSNum.fin 500 := by
    have h : parseFloat "500" = some 500 := by
      simp [parseFloat, parseFloatCore, digitsToNat]
    simp only [parseFloatDouble, h]
    rw [if_neg (by norm_num [overflowThreshold]), if_neg (by norm_num [overflowThreshold])]
  have h300 : parseFloatDouble "300" = JSNum.fin 300 := by
    have h : parseFloat "300" = some 300 := by
      simp [parseFloat, parseFloatCore, digitsToNat]
    simp only [parseFloatDouble, h]
    rw [if_neg (by norm_num [overflowThreshold]), if_neg (by norm_num [overflowThreshold])]
  have h200 : parseFloatDouble "200" = JSNum.fin 200 := by
    have h : parseFloat "200" = some 200 := by
      simp [parseFloat, parseFloatCore, digitsToNat]
    simp only [parseFloatDouble, h]
    rw [if_neg (by norm_num [overflowThreshold]), if_neg (by norm_num [overflowThreshold])]
  have h30 : parseFloatDouble "30" = JSNum.fin 30 := by
    have h : parseFloat "30" = some 30 := by
      simp [parseFloat, parseFloatCore, digitsToNat]
    simp only [parseFloatDouble, h]
    rw [if_neg (by norm_num [overflowThreshold]), if_neg (by norm_num [overflowThreshold])]
  have hne0 : JSNum.fin (100 : ℚ) ≠ JSNum.fin 0 := by
    simp only [ne_eq, JSNum.fin.injEq]
    norm_num
  have hdiv : JSNum.div JSNum.inf (JSNum.fin 100) = JSNum.inf := by
    simp only [JSNum.div]
    rw [if_neg (by norm_num)]
  have hlab : getCurrentRatioInterpretationJS JSNum.inf = "Excelente 🚀" := by
    simp only [getCurrentRatioInterpretationJS]
    rw [if_neg (fun h => JSNum.noConfusion h),
      if_pos (show JSNum.gtb JSNum.inf (JSNum.fin 2.0) = true from rfl)]
  have hEq := calculateRatiosJS_eq_of_parse
    (mkState overflowNumeral "100" "500" "300" "200" "30")
    JSNum.inf (JSNum.fin 100) (JSNum.fin 500) (JSNum.fin 300) (JSNum.fin 200) (JSNum.fin 30)
    hinf h100 h500 h300 h200 h30
    (fun h => JSNum.noConfusion h) (fun h => JSNum.noConfusion h)
    (fun h => JSNum.noConfusion h) (fun h => JSNum.noConfusion h)
    (fun h => JSNum.noConfusion h) (fun h => JSNum.noConfusion h)
  refine ⟨hinf, ?_, ?_, ?_⟩
  · rw [hEq]
  · rw [hEq]
    show some (if JSNum.fin (100 : ℚ) ≠ JSNum.fin 0 then
      (JSNum.div JSNum.inf (JSNum.fin 100)).toFixedTwo else "N/A") = some "Infinity"
    rw [if_pos hne0, hdiv]
    rfl
  · rw [hEq]
    show (if JSNum.fin (100 : ℚ) ≠ JSNum.fin 0 then
      getCurrentRatioInterpretationJS (JSNum.div JSNum.inf (JSNum.fin 100))
      else "Pasivos Circulantes es cero") = "Excelente 🚀"
    rw [if_pos hne0, hdiv, hlab]

/-- Claim C2 (amended): under JS double semantics the computation fails
with the single validation message and produces no ratio results exactly
when at least one input field parses to NaN; whenever no field is NaN,
even when a field has parsed to an infinity after double overflow, the
validation passes, the error stays empty and all four ratio cells are
produced. -/
theorem validation_error_iff_nan (s : AppState) :
    (((calculateRatiosJS s).error =
        "Por favor, ingrese valores numéricos válidos en todos los campos." ∧
      (calculateRatiosJS s).currentRatio = none ∧
      (calculateRatiosJS s).quickRatio = none ∧
      (calculateRatiosJS s).debtToEquityRatio = none ∧
      (calculateRatiosJS s).debtToAssetsRatio = none) ↔
    (parseFloatDouble s.currentAssets = JSNum.nan ∨
      parseFloatDouble s.currentLiabilities = JSNum.nan ∨
      parseFloatDouble s.totalAssets = JSNum.nan ∨
      parseFloatDouble s.totalLiabilities = JSNum.nan ∨
      parseFloatDouble s.shareholdersEquity = JSNum.nan ∨
      parseFloatDouble s.inventory = JSNum.nan)) ∧
    ((parseFloatDouble s.currentAssets = JSNum.nan ∨
      parseFloatDouble s.currentLiabilities = JSNum.nan ∨
      parseFloatDouble s.totalAssets = JSNum.nan ∨
      parseFloatDouble s.totalLiabilities = JSNum.nan ∨
      parseFloatDouble s.shareholdersEquity = JSNum.nan ∨
      parseFloatDouble s.inventory = JSNum.nan) ∨
      ((calculateRatiosJS s).error = "" ∧
        (calculateRatiosJS s).currentRatio.isSome ∧
        (calculateRatiosJS s).quickRatio.isSome ∧
        (calculateRatiosJS s).debtToEquityRatio.isSome ∧
        (calculateRatiosJS s).debtToAssetsRatio.isSome)) := by
  by_cases h : (parseFloatDouble s.currentAssets = JSNum.nan ∨
    parseFloatDouble s.currentLiabilities = JSNum.nan ∨
    parseFloatDouble s.totalAssets = JSNum.nan ∨
    parseFloatDouble s.totalLiabilities = JSNum.nan ∨
    parseFloatDouble s.shareholdersEquity = JSNum.nan ∨
    parseFloatDouble s.inventory = JSNum.nan)
  · rw [calculateRatiosJS_eq_of_nan s h]
    constructor
    · constructor
      · intro _
        exact h
      · intro _
        exact ⟨rfl, rfl, rfl, rfl, rfl⟩
    · exact Or.inl h
  · push_neg at h
    obtain ⟨n1, n2, n3, n4, n5, n6⟩ := h
    rw [calculateRatiosJS_eq_of_parse s _ _ _ _ _ _ rfl rfl rfl rfl rfl rfl n1 n2 n3 n4 n5 n6]
    constructor
    · constructor
      · intro hcontra
        exact absurd hcontra.1 (by simp)
      · intro hcontra
        rcases hcontra with h | h | h | h | h | h
        exacts [absurd h n1, absurd h n2, absurd h n3, absurd h n4, absurd h n5, absurd h n6]
    · exact Or.inr ⟨rfl, by simp, by simp, by simp, by simp⟩
